import Mathlib

/-!
FitnessAI decision-tree classifier.

Shallow embedding of `Eloquent::ML::Port::DecisionTree::predict`, which the
repository holds in two copies:

* `src/ML/exports/model_v1.h` (the exported model, namespace `MLExports`);
* `src/Arduino/fitness_planner/fitness_planner/model_v1.h` (the copy compiled
  into the sketch, namespace `Arduino`).

The function is read at two levels.

Over exact numbers: the argument `float *x` is a `List ℚ`, each comparison
promoting the feature to `double` without changing its value, so a finite
feature is the rational it denotes (`isFloat` singles out the values a `float`
can hold), and a read `x[i]` past the end of the sequence (undefined behaviour
in C++) is the fault `Fault.outOfBounds i`.  This level carries the statements
about exact numeric values and the proof that reads stay in bounds.

On `float` values: a cell holds a `FloatVal` (finite, infinite or NaN), every
test `<=` is false on a NaN, and a read is unchecked, yielding past the end of
the sequence whatever the memory holds there.  On finite values the two levels
agree (`predictFloat_finite`).

Every numeric literal of the source is read as the exact decimal number
written; on `float` values it compares as the `double` it denotes
(`literals_as_doubles`).
The return type `int` is `Int`.
-/

/-- Ways an evaluation of `predict` can fail to yield a label.  `outOfBounds i`
is a read of `x[i]` past the end of the sequence; `invalidInput` is the error
kind `InvalidInput` that the specification names. -/
inductive Fault
  | outOfBounds (i : Nat)
  | invalidInput
  deriving DecidableEq, Repr

/-- The read `x[i]` of the source, failing when `i` is past the end. -/
def readAt (x : List ℚ) (i : Nat) : Except Fault ℚ :=
  match x[i]? with
  | some v => Except.ok v
  | none => Except.error (Fault.outOfBounds i)

/-- The read `x[i]` together with a log of the indices read so far. -/
def readLogged (x : List ℚ) (i : Nat) : StateT (List Nat) (Except Fault) ℚ :=
  fun log =>
    match readAt x i with
    | Except.ok v => Except.ok (v, log ++ [i])
    | Except.error e => Except.error e

/-- The finite values of the C++ type `float` (IEEE 754 binary32): a
significand of at most 24 bits times a power of two in the exponent range. -/
def isFloat (q : ℚ) : Prop :=
  ∃ m e : Int, |m| < 2 ^ 24 ∧ -149 ≤ e ∧ e ≤ 104 ∧ q = m * (2 : ℚ) ^ e

namespace MLExports

/-- Body of `predict` in `src/ML/exports/model_v1.h`, lines 11-55, over an
arbitrary way `rd` of performing the reads `x[i]`. -/
def predictM {m : Type → Type} [Monad m] (rd : Nat → m ℚ) : m Int := do
  if (← rd 3) <= 0.5 then
    if (← rd 0) <= 29.5 then
      if (← rd 2) <= 24.949999809265137 then
        return 2
      else
        return 1
    else
      if (← rd 0) <= 49.5 then
        return 1
      else
        return 0
  else
    if (← rd 0) <= 29.5 then
      if (← rd 2) <= 24.850000381469727 then
        return 5
      else
        return 4
    else
      if (← rd 0) <= 49.5 then
        return 4
      else
        return 3

/-- The function `predict` of `src/ML/exports/model_v1.h`. -/
def predict (x : List ℚ) : Except Fault Int :=
  predictM (readAt x)

/-- The same body, recording which indices are read. -/
def predictLogged (x : List ℚ) : Except Fault (Int × List Nat) :=
  (predictM (readLogged x)).run []

end MLExports

namespace Arduino

/-- Body of `predict` in `src/Arduino/fitness_planner/fitness_planner/model_v1.h`,
lines 8-27, over an arbitrary way `rd` of performing the reads `x[i]`. -/
def predictM {m : Type → Type} [Monad m] (rd : Nat → m ℚ) : m Int := do
  if (← rd 3) <= 0.5 then
    if (← rd 0) <= 29.5 then
      if (← rd 2) <= 24.95 then return 2
      else return 1
    else
      if (← rd 0) <= 49.5 then return 1
      else return 0
  else
    if (← rd 0) <= 29.5 then
      if (← rd 2) <= 24.85 then return 5
      else return 4
    else
      if (← rd 0) <= 49.5 then return 4
      else return 3

/-- The function `predict` of the Arduino copy of `model_v1.h`. -/
def predict (x : List ℚ) : Except Fault Int :=
  predictM (readAt x)

/-- The same body, recording which indices are read. -/
def predictLogged (x : List ℚ) : Except Fault (Int × List Nat) :=
  (predictM (readLogged x)).run []

end Arduino

namespace Spec

/-- The reference tree of section 4.1 of the specification, on the three
features it compares. -/
def referenceTree (f0 f2 f3 : ℚ) : Int :=
  if f3 <= 0.5 then
    if f0 <= 29.5 then
      if f2 <= 24.949999809265137 then 2
      else 1
    else
      if f0 <= 49.5 then 1
      else 0
  else
    if f0 <= 29.5 then
      if f2 <= 24.850000381469727 then 5
      else 4
    else
      if f0 <= 49.5 then 4
      else 3

/-- The classifier as the specification words it: the reference tree on
`features[0]`, `features[2]`, `features[3]` of a sequence of at least 4
elements, and the error `InvalidInput` on a shorter one. -/
def predict : List ℚ → Except Fault Int
  | f0 :: _ :: f2 :: f3 :: _ => Except.ok (referenceTree f0 f2 f3)
  | _ => Except.error Fault.invalidInput

end Spec

/-- Values that a cell of a `float` array can hold: a finite value, an
infinity, or a NaN.  `valid` says that a finite value is one a `float` has. -/
inductive FloatVal
  | finite (q : ℚ)
  | posInf
  | negInf
  | nan
  deriving DecidableEq

namespace FloatVal

/-- The finite value is one the type `float` has; the other values always are. -/
def valid : FloatVal → Prop
  | finite q => isFloat q
  | _ => True

/-- The C++ test `v <= t` of a `float` against a finite literal `t`: false on
a NaN, as every comparison with a NaN is. -/
def le (v : FloatVal) (t : ℚ) : Bool :=
  match v with
  | finite q => decide (q ≤ t)
  | posInf => false
  | negInf => true
  | nan => false

/-- The C++ test `v > t` of a `float` against a finite literal `t`: false on
a NaN. -/
def gt (v : FloatVal) (t : ℚ) : Bool :=
  match v with
  | finite q => decide (t < q)
  | posInf => true
  | negInf => false
  | nan => false

end FloatVal

/-- The rational `v` is a `float` nearest to `r`: what a cell of a `float`
array holds when the number `r` is stored into it. -/
def isNearestFloat (v r : ℚ) : Prop :=
  isFloat v ∧ ∀ w : ℚ, isFloat w → |v - r| ≤ |w - r|

/-- The read `x[i]` of the source as the machine performs it, with no bounds
check: inside the sequence it yields the element, past the end whatever value
`past i` the memory holds there. -/
def readMem (past : Nat → FloatVal) (x : List FloatVal) (i : Nat) : FloatVal :=
  x.getD i (past i)

namespace MLExports

/-- The function `predict` of `src/ML/exports/model_v1.h`, lines 11-55, on
`float` values and unchecked reads.  Every path ends in a `return`. -/
def predictFloat (past : Nat → FloatVal) (x : List FloatVal) : Except Fault Int := do
  if (readMem past x 3).le 0.5 then
    if (readMem past x 0).le 29.5 then
      if (readMem past x 2).le 24.949999809265137 then
        return 2
      else
        return 1
    else
      if (readMem past x 0).le 49.5 then
        return 1
      else
        return 0
  else
    if (readMem past x 0).le 29.5 then
      if (readMem past x 2).le 24.850000381469727 then
        return 5
      else
        return 4
    else
      if (readMem past x 0).le 49.5 then
        return 4
      else
        return 3

end MLExports

namespace Arduino

/-- The function `predict` of the Arduino copy of `model_v1.h`, lines 8-27, on
`float` values and unchecked reads.  Every path ends in a `return`. -/
def predictFloat (past : Nat → FloatVal) (x : List FloatVal) : Except Fault Int := do
  if (readMem past x 3).le 0.5 then
    if (readMem past x 0).le 29.5 then
      if (readMem past x 2).le 24.95 then return 2
      else return 1
    else
      if (readMem past x 0).le 49.5 then return 1
      else return 0
  else
    if (readMem past x 0).le 29.5 then
      if (readMem past x 2).le 24.85 then return 5
      else return 4
    else
      if (readMem past x 0).le 49.5 then return 4
      else return 3

end Arduino

/-! ## Shared lemmas -/

theorem exists_cons4 (x : List ℚ) (h : 4 ≤ x.length) :
    ∃ a b c d rest, x = a :: b :: c :: d :: rest := by
  match x, h with
  | a :: b :: c :: d :: rest, _ => exact ⟨a, b, c, d, rest, rfl⟩

theorem mlExports_predict_cons4 (a b c d : ℚ) (rest : List ℚ) :
    MLExports.predict (a :: b :: c :: d :: rest) =
      Except.ok (if d ≤ 0.5 then
          if a ≤ 29.5 then (if c ≤ 24.949999809265137 then 2 else 1)
          else (if a ≤ 49.5 then 1 else 0)
        else
          if a ≤ 29.5 then (if c ≤ 24.850000381469727 then 5 else 4)
          else (if a ≤ 49.5 then 4 else 3)) := by
  simp only [MLExports.predict, MLExports.predictM, readAt, List.getElem?_cons_succ,
    List.getElem?_cons_zero, bind, Except.bind, pure, Except.pure]
  split_ifs <;> rfl

theorem arduino_predict_cons4 (a b c d : ℚ) (rest : List ℚ) :
    Arduino.predict (a :: b :: c :: d :: rest) =
      Except.ok (if d ≤ 0.5 then
          if a ≤ 29.5 then (if c ≤ 24.95 then 2 else 1)
          else (if a ≤ 49.5 then 1 else 0)
        else
          if a ≤ 29.5 then (if c ≤ 24.85 then 5 else 4)
          else (if a ≤ 49.5 then 4 else 3)) := by
  simp only [Arduino.predict, Arduino.predictM, readAt, List.getElem?_cons_succ,
    List.getElem?_cons_zero, bind, Except.bind, pure, Except.pure]
  split_ifs <;> rfl

theorem mlExports_predict_short (x : List ℚ) (h : x.length < 4) :
    MLExports.predict x = Except.error (Fault.outOfBounds 3) := by
  have h3 : x[3]? = none := List.getElem?_eq_none (by omega)
  simp [MLExports.predict, MLExports.predictM, readAt, h3, bind, Except.bind]

theorem arduino_predict_short (x : List ℚ) (h : x.length < 4) :
    Arduino.predict x = Except.error (Fault.outOfBounds 3) := by
  have h3 : x[3]? = none := List.getElem?_eq_none (by omega)
  simp [Arduino.predict, Arduino.predictM, readAt, h3, bind, Except.bind]

theorem mlExports_predictLogged_cons4 (a b c d : ℚ) (rest : List ℚ) :
    ∃ log, MLExports.predictLogged (a :: b :: c :: d :: rest) =
        Except.ok (if d ≤ 0.5 then
            if a ≤ 29.5 then (if c ≤ 24.949999809265137 then 2 else 1)
            else (if a ≤ 49.5 then 1 else 0)
          else
            if a ≤ 29.5 then (if c ≤ 24.850000381469727 then 5 else 4)
            else (if a ≤ 49.5 then 4 else 3), log) ∧
      ∀ i ∈ log, i = 3 ∨ i = 0 ∨ i = 2 := by
  by_cases h3 : d ≤ 0.5 <;> by_cases h0 : a ≤ 29.5 <;> by_cases h1 : a ≤ 49.5 <;>
    by_cases h2 : c ≤ 24.949999809265137 <;> by_cases h2b : c ≤ 24.850000381469727 <;>
    simp [MLExports.predictLogged, MLExports.predictM, readLogged, readAt, bind, Except.bind, pure,
      Except.pure, StateT.run, StateT.bind, StateT.pure, h3, h0, h1, h2, h2b]

theorem arduino_predictLogged_cons4 (a b c d : ℚ) (rest : List ℚ) :
    ∃ log, Arduino.predictLogged (a :: b :: c :: d :: rest) =
        Except.ok (if d ≤ 0.5 then
            if a ≤ 29.5 then (if c ≤ 24.95 then 2 else 1)
            else (if a ≤ 49.5 then 1 else 0)
          else
            if a ≤ 29.5 then (if c ≤ 24.85 then 5 else 4)
            else (if a ≤ 49.5 then 4 else 3), log) ∧
      ∀ i ∈ log, i = 3 ∨ i = 0 ∨ i = 2 := by
  by_cases h3 : d ≤ 0.5 <;> by_cases h0 : a ≤ 29.5 <;> by_cases h1 : a ≤ 49.5 <;>
    by_cases h2 : c ≤ 24.95 <;> by_cases h2b : c ≤ 24.85 <;>
    simp [Arduino.predictLogged, Arduino.predictM, readLogged, readAt, bind, Except.bind, pure,
      Except.pure, StateT.run, StateT.bind, StateT.pure, h3, h0, h1, h2, h2b]

theorem mlExports_predictFloat_cons4 (past : Nat → FloatVal) (a b c d : FloatVal)
    (rest : List FloatVal) :
    MLExports.predictFloat past (a :: b :: c :: d :: rest) =
      Except.ok (if d.le 0.5 then
          if a.le 29.5 then (if c.le 24.949999809265137 then 2 else 1)
          else (if a.le 49.5 then 1 else 0)
        else
          if a.le 29.5 then (if c.le 24.850000381469727 then 5 else 4)
          else (if a.le 49.5 then 4 else 3)) := by
  simp only [MLExports.predictFloat, readMem, List.getD_cons_succ, List.getD_cons_zero,
    pure, Except.pure]
  split_ifs <;> rfl

theorem arduino_predictFloat_cons4 (past : Nat → FloatVal) (a b c d : FloatVal)
    (rest : List FloatVal) :
    Arduino.predictFloat past (a :: b :: c :: d :: rest) =
      Except.ok (if d.le 0.5 then
          if a.le 29.5 then (if c.le 24.95 then 2 else 1)
          else (if a.le 49.5 then 1 else 0)
        else
          if a.le 29.5 then (if c.le 24.85 then 5 else 4)
          else (if a.le 49.5 then 4 else 3)) := by
  simp only [Arduino.predictFloat, readMem, List.getD_cons_succ, List.getD_cons_zero,
    pure, Except.pure]
  split_ifs <;> rfl

/-- On finite values the `float` reading of a copy and its reading over exact
numbers are the same function. -/
theorem predictFloat_finite (past : Nat → FloatVal) (a b c d : ℚ) :
    MLExports.predictFloat past
        [FloatVal.finite a, FloatVal.finite b, FloatVal.finite c, FloatVal.finite d] =
      MLExports.predict [a, b, c, d] ∧
    Arduino.predictFloat past
        [FloatVal.finite a, FloatVal.finite b, FloatVal.finite c, FloatVal.finite d] =
      Arduino.predict [a, b, c, d] := by
  rw [mlExports_predictFloat_cons4, arduino_predictFloat_cons4, mlExports_predict_cons4,
    arduino_predict_cons4]
  simp only [FloatVal.le, decide_eq_true_eq, and_self]

/-- Between two neighbours `k / 2^19` and `(k + 1) / 2^19` of the binade
`[16, 32)` there is no `float`. -/
theorem float_grid (w : ℚ) (hw : isFloat w) (k : Int) (hk : 2 ^ 23 ≤ k)
    (h1 : (k : ℚ) / 2 ^ 19 < w) (h2 : w < ((k : ℚ) + 1) / 2 ^ 19) : False := by
  obtain ⟨m, e, hm, -, -, rfl⟩ := hw
  have hkq : (2 : ℚ) ^ 23 ≤ (k : ℚ) := by exact_mod_cast hk
  by_cases he : -19 ≤ e
  · obtain ⟨n, hn⟩ := Int.eq_ofNat_of_zero_le (show 0 ≤ e + 19 by omega)
    have he' : e = (n : Int) - 19 := by omega
    have hpow : (2 : ℚ) ^ e = 2 ^ n / 2 ^ 19 := by
      rw [he', zpow_sub₀ (by norm_num : (2 : ℚ) ≠ 0), zpow_natCast]
      norm_num
    rw [hpow] at h1 h2
    have h19 : (0 : ℚ) < 2 ^ 19 := by norm_num
    have g1 : (k : ℚ) < (m : ℚ) * 2 ^ n := by
      have := (div_lt_div_iff_of_pos_right h19).mp (by rw [mul_div_assoc]; exact h1 :
        (k : ℚ) / 2 ^ 19 < (m : ℚ) * 2 ^ n / 2 ^ 19)
      exact this
    have g2 : (m : ℚ) * 2 ^ n < (k : ℚ) + 1 := by
      have := (div_lt_div_iff_of_pos_right h19).mp (by rw [mul_div_assoc]; exact h2 :
        (m : ℚ) * 2 ^ n / 2 ^ 19 < ((k : ℚ) + 1) / 2 ^ 19)
      exact this
    have g1' : k < m * 2 ^ n := by exact_mod_cast g1
    have g2' : m * 2 ^ n < k + 1 := by exact_mod_cast g2
    omega
  · have he' : e ≤ -20 := by omega
    have hp : (2 : ℚ) ^ e ≤ 2 ^ (-20 : Int) := zpow_le_zpow_right₀ (by norm_num) he'
    have hp0 : (0 : ℚ) < 2 ^ e := zpow_pos (by norm_num) e
    have hmq : (m : ℚ) < 2 ^ 24 := by
      have : m < 2 ^ 24 := lt_of_le_of_lt (le_abs_self m) hm
      exact_mod_cast this
    have hw16 : (m : ℚ) * 2 ^ e < 16 := by
      calc (m : ℚ) * 2 ^ e < 2 ^ 24 * 2 ^ e := by
            exact mul_lt_mul_of_pos_right hmq hp0
        _ ≤ 2 ^ 24 * 2 ^ (-20 : Int) := by
            exact mul_le_mul_of_nonneg_left hp (by norm_num)
        _ = 16 := by norm_num
    have hk16 : (16 : ℚ) ≤ (k : ℚ) / 2 ^ 19 := by
      rw [le_div_iff₀ (by norm_num)]
      linarith
    linarith

/-- Two thresholds of one cell `[k / 2^19, (k + 1) / 2^19)` of the `float` grid
are passed by the same `float` values. -/
theorem le_iff_of_cell (q : ℚ) (hq : isFloat q) (k : Int) (hk : 2 ^ 23 ≤ k) (s t : ℚ)
    (hs : (k : ℚ) / 2 ^ 19 ≤ s) (hst : s ≤ t) (ht : t < ((k : ℚ) + 1) / 2 ^ 19) :
    q ≤ t ↔ q ≤ s := by
  constructor
  · intro h
    by_contra hcon
    exact float_grid q hq k hk (lt_of_le_of_lt hs (not_le.mp hcon)) (lt_of_le_of_lt h ht)
  · intro h
    exact le_trans h hst

/-- On `float` values each threshold, read as the decimal number written,
compares as the `double` that the literal denotes. -/
theorem literals_as_doubles (q : ℚ) (hq : isFloat q) :
    (q ≤ 24.949999809265137 ↔ q ≤ 26161971 / 1048576) ∧
    (q ≤ 24.850000381469727 ↔ q ≤ 13028557 / 524288) ∧
    (q ≤ 24.95 ↔ q ≤ 7022800668930867 / 281474976710656) ∧
    (q ≤ 24.85 ↔ q ≤ 3497326585629901 / 140737488355328) := by
  refine ⟨le_iff_of_cell q hq 13080985 (by norm_num) _ _ ?_ ?_ ?_,
    le_iff_of_cell q hq 13028557 (by norm_num) _ _ ?_ ?_ ?_,
    le_iff_of_cell q hq 13080985 (by norm_num) _ _ ?_ ?_ ?_,
    (le_iff_of_cell q hq 13028556 (by norm_num) _ _ ?_ ?_ ?_).symm⟩ <;> norm_num

/-- A `float` that is at least as near to `r` as both neighbours `k / 2^19` and
`(k + 1) / 2^19` enclosing `r` is at least as near to `r` as any `float`. -/
theorem nearest_of_neighbours (k : Int) (hk : 2 ^ 23 ≤ k) (r v : ℚ)
    (hlo : |v - r| ≤ r - (k : ℚ) / 2 ^ 19) (hhi : |v - r| ≤ ((k : ℚ) + 1) / 2 ^ 19 - r)
    (w : ℚ) (hw : isFloat w) : |v - r| ≤ |w - r| := by
  rcases le_or_lt w ((k : ℚ) / 2 ^ 19) with h | h
  · have : r - w ≤ |w - r| := by rw [abs_sub_comm]; exact le_abs_self _
    linarith
  · rcases le_or_lt (((k : ℚ) + 1) / 2 ^ 19) w with h' | h'
    · have : w - r ≤ |w - r| := le_abs_self _
      linarith
    · exact (float_grid w hw k hk h h').elim

theorem FloatVal.not_le_iff (v : FloatVal) (t : ℚ) :
    v.le t = false ↔ (v.gt t = true ∨ v = FloatVal.nan) := by
  cases v <;> simp [FloatVal.le, FloatVal.gt]

theorem FloatVal.le_mono (v : FloatVal) (s t : ℚ) (hst : s ≤ t) (h : v.le s = true) :
    v.le t = true := by
  cases v <;> simp_all [FloatVal.le]
  exact le_trans h hst

theorem mlExports_predictFloat_eq (past : Nat → FloatVal) (x : List FloatVal) :
    MLExports.predictFloat past x =
      Except.ok (if (readMem past x 3).le 0.5 then
          if (readMem past x 0).le 29.5 then
            (if (readMem past x 2).le 24.949999809265137 then 2 else 1)
          else (if (readMem past x 0).le 49.5 then 1 else 0)
        else
          if (readMem past x 0).le 29.5 then
            (if (readMem past x 2).le 24.850000381469727 then 5 else 4)
          else (if (readMem past x 0).le 49.5 then 4 else 3)) := by
  simp only [MLExports.predictFloat, pure, Except.pure]
  split_ifs <;> rfl

theorem arduino_predictFloat_eq (past : Nat → FloatVal) (x : List FloatVal) :
    Arduino.predictFloat past x =
      Except.ok (if (readMem past x 3).le 0.5 then
          if (readMem past x 0).le 29.5 then
            (if (readMem past x 2).le 24.95 then 2 else 1)
          else (if (readMem past x 0).le 49.5 then 1 else 0)
        else
          if (readMem past x 0).le 29.5 then
            (if (readMem past x 2).le 24.85 then 5 else 4)
          else (if (readMem past x 0).le 49.5 then 4 else 3)) := by
  simp only [Arduino.predictFloat, pure, Except.pure]
  split_ifs <;> rfl

theorem readMem_past (past : Nat → FloatVal) (x : List FloatVal) (i : Nat)
    (h : x.length ≤ i) : readMem past x i = past i := by
  simp [readMem, List.getD_eq_getElem?_getD, List.getElem?_eq_none h]

theorem isFloat_dyadic19 (m : Int) (hm : |m| < 2 ^ 24) : isFloat ((m : ℚ) / 2 ^ 19) :=
  ⟨m, -19, hm, by norm_num, by norm_num, by
    rw [zpow_neg, div_eq_mul_inv]; norm_num⟩

/-! ## Claims -/

/-- C1: on every feature vector `x` of at least 4 exact numbers, `predict` of
the canonical copy `src/ML/exports/model_v1.h` returns exactly the label of the
reference tree of the specification on `x[0]`, `x[2]`, `x[3]`. -/
theorem C1_predict_eq_reference_tree (x : List ℚ) (h : 4 ≤ x.length) :
    MLExports.predict x = Except.ok (Spec.referenceTree x[0] x[2] x[3]) ∧
    MLExports.predict x = Spec.predict x := by
  obtain ⟨a, b, c, d, rest, rfl⟩ := exists_cons4 x h
  rw [mlExports_predict_cons4]
  exact ⟨rfl, rfl⟩

theorem C1_predict_eq_reference_tree_witness :
    4 ≤ [29.5, 0, 24.95, 0.5, (7 : ℚ)].length ∧
    MLExports.predict [29.5, 0, 24.95, 0.5, 7] =
      Except.ok (Spec.referenceTree 29.5 24.95 0.5) ∧
    MLExports.predict [29.5, 0, 24.95, 0.5, 7] = Spec.predict [29.5, 0, 24.95, 0.5, 7] :=
  ⟨by decide, C1_predict_eq_reference_tree [29.5, 0, 24.95, 0.5, 7] (by decide)⟩

/-- C2: on every 4-element feature vector, `predict` returns a label `l` with
`0 ≤ l ≤ 5`, in each of the two source copies. -/
theorem C2_label_range (x : List ℚ) (h : x.length = 4) :
    (∃ l : Int, MLExports.predict x = Except.ok l ∧ 0 ≤ l ∧ l ≤ 5) ∧
    (∃ l : Int, Arduino.predict x = Except.ok l ∧ 0 ≤ l ∧ l ≤ 5) := by
  obtain ⟨a, b, c, d, rest, rfl⟩ := exists_cons4 x (by omega)
  rw [mlExports_predict_cons4, arduino_predict_cons4]
  constructor
  · refine ⟨_, rfl, ?_, ?_⟩ <;> split_ifs <;> decide
  · refine ⟨_, rfl, ?_, ?_⟩ <;> split_ifs <;> decide

theorem C2_label_range_witness :
    [50, 0, 0, (1 : ℚ)].length = 4 ∧
    (∃ l : Int, MLExports.predict [50, 0, 0, 1] = Except.ok l ∧ 0 ≤ l ∧ l ≤ 5) ∧
    (∃ l : Int, Arduino.predict [50, 0, 0, 1] = Except.ok l ∧ 0 ≤ l ∧ l ≤ 5) :=
  ⟨rfl, C2_label_range [50, 0, 0, 1] rfl⟩

/-- C3 (evaluation at the failing input): on the vector `[20, 0, v, 1]` with
`v = 13028557 / 2^19`, the value a `float` holds for 24.85, the Arduino copy
returns 4 and the copy of `src/ML/exports` returns 5, so the two copies are
not semantically identical. -/
theorem C3_copies_differ_at_float_24_85 :
    isFloat (13028557 / 524288) ∧
    |(13028557 / 524288 : ℚ) - 24.85| < 1 / 2 ^ 20 ∧
    Arduino.predict [20, 0, 13028557 / 524288, 1] = Except.ok 4 ∧
    MLExports.predict [20, 0, 13028557 / 524288, 1] = Except.ok 5 := by
  refine ⟨⟨13028557, -19, by norm_num, by norm_num, by norm_num, by norm_num⟩, ?_, ?_, ?_⟩
  · rw [abs_lt]; norm_num
  · rw [arduino_predict_cons4]; norm_num
  · rw [mlExports_predict_cons4]; norm_num

/-- C4 (counterexample): no `float` equals 24.949999809265137; stored into a
`float` array, the input `[29.5, 0, 24.949999809265137, 0.5]` holds
`x[2] = 13080986 / 2^19`, the `float` nearest that number, and on this array
`predict` of the canonical copy returns 1, not 2. -/
theorem C4_literal_test_stored_in_floats_returns_1 :
    isNearestFloat (13080986 / 524288) 24.949999809265137 ∧
    isFloat 29.5 ∧ isFloat 0 ∧ isFloat 0.5 ∧
    MLExports.predictFloat (fun _ => FloatVal.nan)
      [.finite 29.5, .finite 0, .finite (13080986 / 524288), .finite 0.5] = Except.ok 1 ∧
    MLExports.predictFloat (fun _ => FloatVal.nan)
      [.finite 29.5, .finite 0, .finite (13080986 / 524288), .finite 0.5] ≠ Except.ok 2 := by
  refine ⟨⟨?_, nearest_of_neighbours 13080985 (by norm_num) _ _ ?_ ?_⟩,
    ⟨59, -1, by norm_num, by norm_num, by norm_num, by norm_num⟩,
    ⟨0, 0, by norm_num, by norm_num, by norm_num, by norm_num⟩,
    ⟨1, -1, by norm_num, by norm_num, by norm_num, by norm_num⟩, ?_, ?_⟩
  · have h := isFloat_dyadic19 13080986 (by norm_num)
    norm_num at h ⊢
    exact h
  · rw [abs_le]; norm_num
  · rw [abs_le]; norm_num
  · rw [mlExports_predictFloat_cons4]; norm_num [FloatVal.le]
  · rw [mlExports_predictFloat_cons4]; norm_num [FloatVal.le]

/-- C4 (amended): inclusive tie-break of `predict` (canonical copy) on `float`
vectors.  `x3 = 0.5` gives a label in {0,1,2}; `x0 = 29.5` gives the label of
the `x2` node; `x0 = 49.5` gives 1 or 4; with `x0 ≤ 29.5` and `x3 > 0.5`, `x2`
equal to the `float` `13028557 / 2^19` that the threshold 24.850000381469727
denotes gives 5.  No `float` equals the threshold 24.949999809265137: with
`x0 ≤ 29.5` and `x3 ≤ 0.5`, the `float` just below it gives 2 and the `float`
just above it gives 1. -/
theorem C4_tie_break_on_floats (past : Nat → FloatVal) (x0 x1 x2 x3 : FloatVal) :
    (x3 = FloatVal.finite 0.5 → ∃ l : Int,
        MLExports.predictFloat past [x0, x1, x2, x3] = Except.ok l ∧
        (l = 0 ∨ l = 1 ∨ l = 2)) ∧
    (x0 = FloatVal.finite 29.5 → MLExports.predictFloat past [x0, x1, x2, x3] =
        Except.ok (if x3.le 0.5 then (if x2.le 24.949999809265137 then 2 else 1)
          else (if x2.le 24.850000381469727 then 5 else 4))) ∧
    (x0 = FloatVal.finite 49.5 → MLExports.predictFloat past [x0, x1, x2, x3] =
        Except.ok (if x3.le 0.5 then 1 else 4)) ∧
    (x0.le 29.5 = true → x2 = FloatVal.finite (13028557 / 524288) → x3.gt 0.5 = true →
        MLExports.predictFloat past [x0, x1, x2, x3] = Except.ok 5) ∧
    (x0.le 29.5 = true → x2 = FloatVal.finite (13080985 / 524288) → x3.le 0.5 = true →
        MLExports.predictFloat past [x0, x1, x2, x3] = Except.ok 2) ∧
    (x0.le 29.5 = true → x2 = FloatVal.finite (13080986 / 524288) → x3.le 0.5 = true →
        MLExports.predictFloat past [x0, x1, x2, x3] = Except.ok 1) ∧
    isNearestFloat (13028557 / 524288) 24.850000381469727 ∧
    (13028557 / 524288 : ℚ) ≤ 24.850000381469727 ∧
    (∀ q : ℚ, isFloat q → q ≠ 24.949999809265137 ∧
      (q ≤ 13080985 / 524288 ∨ 13080986 / 524288 ≤ q)) := by
  simp only [mlExports_predictFloat_cons4]
  refine ⟨?_, ?_, ?_, ?_, ?_, ?_, ⟨?_, nearest_of_neighbours 13028557 (by norm_num) _ _ ?_ ?_⟩,
    by norm_num, ?_⟩
  · rintro rfl
    have h : (FloatVal.finite 0.5).le 0.5 = true := by simp [FloatVal.le]
    simp only [h, if_true]
    refine ⟨_, rfl, ?_⟩
    split_ifs <;> simp
  · rintro rfl
    have h : (FloatVal.finite 29.5).le 29.5 = true := by simp [FloatVal.le]
    simp only [h, if_true]
  · rintro rfl
    have h : (FloatVal.finite 49.5).le 49.5 = true := by simp [FloatVal.le]
    have h' : (FloatVal.finite 49.5).le 29.5 = false := by norm_num [FloatVal.le]
    simp only [h, h', if_true, Bool.false_eq_true, if_false]
  · rintro h0 rfl h3
    have h3' : x3.le 0.5 = false := (FloatVal.not_le_iff x3 0.5).mpr (Or.inl h3)
    have h2 : (FloatVal.finite (13028557 / 524288)).le 24.850000381469727 = true := by
      norm_num [FloatVal.le]
    simp only [h0, h2, h3', if_true, Bool.false_eq_true, if_false]
  · rintro h0 rfl h3
    have h2 : (FloatVal.finite (13080985 / 524288)).le 24.949999809265137 = true := by
      norm_num [FloatVal.le]
    simp only [h0, h2, h3, if_true]
  · rintro h0 rfl h3
    have h2 : (FloatVal.finite (13080986 / 524288)).le 24.949999809265137 = false := by
      norm_num [FloatVal.le]
    simp only [h0, h2, h3, if_true, Bool.false_eq_true, if_false]
  · have h := isFloat_dyadic19 13028557 (by norm_num)
    norm_num at h ⊢
    exact h
  · rw [abs_le]; norm_num
  · rw [abs_le]; norm_num
  · intro q hq
    constructor
    · intro h
      refine float_grid q hq 13080985 (by norm_num) ?_ ?_ <;> rw [h] <;> norm_num
    · by_contra hcon
      push_neg at hcon
      refine float_grid q hq 13080985 (by norm_num) ?_ ?_
      · have := hcon.1; norm_num at this ⊢; linarith
      · have := hcon.2; norm_num at this ⊢; linarith

theorem C4_tie_break_on_floats_witness :
    (∃ l : Int, MLExports.predictFloat (fun _ => FloatVal.nan)
        [.finite 49.5, .finite 0, .finite 0, .finite 0.5] = Except.ok l ∧
        (l = 0 ∨ l = 1 ∨ l = 2)) ∧
    MLExports.predictFloat (fun _ => FloatVal.nan)
        [.finite 49.5, .finite 0, .finite 0, .finite 0.5] =
      Except.ok (if (FloatVal.finite 0.5).le 0.5 then 1 else 4) ∧
    MLExports.predictFloat (fun _ => FloatVal.nan)
        [.finite 29.5, .finite 0, .finite (13028557 / 524288), .finite 1] = Except.ok 5 ∧
    MLExports.predictFloat (fun _ => FloatVal.nan)
        [.finite 29.5, .finite 0, .finite (13080985 / 524288), .finite 0.5] = Except.ok 2 ∧
    MLExports.predictFloat (fun _ => FloatVal.nan)
        [.finite 29.5, .finite 0, .finite (13080986 / 524288), .finite 0.5] = Except.ok 1 :=
  ⟨(C4_tie_break_on_floats _ (.finite 49.5) (.finite 0) (.finite 0) (.finite 0.5)).1 rfl,
    (C4_tie_break_on_floats _ (.finite 49.5) (.finite 0) (.finite 0) (.finite 0.5)).2.2.1 rfl,
    (C4_tie_break_on_floats _ (.finite 29.5) (.finite 0) (.finite (13028557 / 524288))
      (.finite 1)).2.2.2.1 (by simp [FloatVal.le]) rfl (by norm_num [FloatVal.gt]),
    (C4_tie_break_on_floats _ (.finite 29.5) (.finite 0) (.finite (13080985 / 524288))
      (.finite 0.5)).2.2.2.2.1 (by simp [FloatVal.le]) rfl (by simp [FloatVal.le]),
    (C4_tie_break_on_floats _ (.finite 29.5) (.finite 0) (.finite (13080986 / 524288))
      (.finite 0.5)).2.2.2.2.2.1 (by simp [FloatVal.le]) rfl (by simp [FloatVal.le])⟩

/-- C6 (counterexample): on the `float` vector `[NaN, 0, 0, 0]` both copies
return 0, and on `[NaN, 0, 0, 1]` both return 3, although `x[0] > 49.5` is
false for a NaN. -/
theorem C6_nan_feature_0_gives_0_and_3 :
    FloatVal.nan.gt 49.5 = false ∧
    MLExports.predictFloat (fun _ => FloatVal.nan)
      [.nan, .finite 0, .finite 0, .finite 0] = Except.ok 0 ∧
    MLExports.predictFloat (fun _ => FloatVal.nan)
      [.nan, .finite 0, .finite 0, .finite 1] = Except.ok 3 ∧
    Arduino.predictFloat (fun _ => FloatVal.nan)
      [.nan, .finite 0, .finite 0, .finite 0] = Except.ok 0 ∧
    Arduino.predictFloat (fun _ => FloatVal.nan)
      [.nan, .finite 0, .finite 0, .finite 1] = Except.ok 3 := by
  simp only [mlExports_predictFloat_cons4, arduino_predictFloat_cons4]
  norm_num [FloatVal.le, FloatVal.gt]

/-- C6 (amended): in each of the two source copies and for every 4-element
`float` vector, `predict` returns 0 exactly when `x3 ≤ 0.5` holds and `x0 ≤ 49.5`
does not (`x0 > 49.5` or `x0` is a NaN), and 3 exactly when neither `x3 ≤ 0.5`
nor `x0 ≤ 49.5` holds, whatever `x1` and `x2` are; `[50, 0, 0, 0]` gives 0 and
`[50, 0, 0, 1]` gives 3. -/
theorem C6_labels_0_and_3_on_floats (past : Nat → FloatVal) (x0 x1 x2 x3 : FloatVal) :
    (MLExports.predictFloat past [x0, x1, x2, x3] = Except.ok 0 ↔
      x3.le 0.5 = true ∧ (x0.gt 49.5 = true ∨ x0 = FloatVal.nan)) ∧
    (MLExports.predictFloat past [x0, x1, x2, x3] = Except.ok 3 ↔
      (x3.gt 0.5 = true ∨ x3 = FloatVal.nan) ∧ (x0.gt 49.5 = true ∨ x0 = FloatVal.nan)) ∧
    (Arduino.predictFloat past [x0, x1, x2, x3] = Except.ok 0 ↔
      x3.le 0.5 = true ∧ (x0.gt 49.5 = true ∨ x0 = FloatVal.nan)) ∧
    (Arduino.predictFloat past [x0, x1, x2, x3] = Except.ok 3 ↔
      (x3.gt 0.5 = true ∨ x3 = FloatVal.nan) ∧ (x0.gt 49.5 = true ∨ x0 = FloatVal.nan)) ∧
    MLExports.predictFloat past [.finite 50, .finite 0, .finite 0, .finite 0] = Except.ok 0 ∧
    MLExports.predictFloat past [.finite 50, .finite 0, .finite 0, .finite 1] = Except.ok 3 ∧
    Arduino.predictFloat past [.finite 50, .finite 0, .finite 0, .finite 0] = Except.ok 0 ∧
    Arduino.predictFloat past [.finite 50, .finite 0, .finite 0, .finite 1] = Except.ok 3 := by
  have hm := FloatVal.le_mono x0 29.5 49.5 (by norm_num)
  simp only [mlExports_predictFloat_cons4, arduino_predictFloat_cons4, ← FloatVal.not_le_iff]
  refine ⟨?_, ?_, ?_, ?_, by norm_num [FloatVal.le], by norm_num [FloatVal.le],
    by norm_num [FloatVal.le], by norm_num [FloatVal.le]⟩ <;>
  · cases h3 : x3.le 0.5 <;> cases h0 : x0.le 29.5 <;> cases h1 : x0.le 49.5 <;>
      simp [h0, h1] at hm ⊢ <;> split_ifs <;> simp

/-- C7 (counterexample): on the `float` vector `[0, 0, 0, NaN]` the canonical
copy returns 5 although `x[3] > 0.5` is false for a NaN. -/
theorem C7_nan_feature_3_gives_5 :
    FloatVal.nan.gt 0.5 = false ∧
    MLExports.predictFloat (fun _ => FloatVal.nan)
      [.finite 0, .finite 0, .finite 0, .nan] = Except.ok 5 := by
  simp only [mlExports_predictFloat_cons4]
  norm_num [FloatVal.le, FloatVal.gt]

/-- C7 (amended): for every 4-element `float` vector, `predict` of the
canonical copy returns 2 exactly when `x3 ≤ 0.5`, `x0 ≤ 29.5` and
`x2 ≤ 24.949999809265137`, and 5 exactly when `x3 ≤ 0.5` does not hold
(`x3 > 0.5` or `x3` is a NaN), `x0 ≤ 29.5` and `x2 ≤ 24.850000381469727`;
`[0, 0, 0, 0]` gives 2 and `[0, 0, 0, 1]` gives 5. -/
theorem C7_labels_2_and_5_on_floats (past : Nat → FloatVal) (x0 x1 x2 x3 : FloatVal) :
    (MLExports.predictFloat past [x0, x1, x2, x3] = Except.ok 2 ↔
      x3.le 0.5 = true ∧ x0.le 29.5 = true ∧ x2.le 24.949999809265137 = true) ∧
    (MLExports.predictFloat past [x0, x1, x2, x3] = Except.ok 5 ↔
      (x3.gt 0.5 = true ∨ x3 = FloatVal.nan) ∧ x0.le 29.5 = true ∧
        x2.le 24.850000381469727 = true) ∧
    MLExports.predictFloat past [.finite 0, .finite 0, .finite 0, .finite 0] = Except.ok 2 ∧
    MLExports.predictFloat past [.finite 0, .finite 0, .finite 0, .finite 1] = Except.ok 5 := by
  simp only [mlExports_predictFloat_cons4, ← FloatVal.not_le_iff]
  refine ⟨?_, ?_, by norm_num [FloatVal.le], by norm_num [FloatVal.le]⟩ <;>
  · cases h3 : x3.le 0.5 <;> cases h0 : x0.le 29.5 <;>
      cases h2 : x2.le 24.949999809265137 <;> cases h2b : x2.le 24.850000381469727 <;>
      simp <;> split_ifs <;> simp

/-- C8: `predict` is a function of `x[0]`, `x[2]` and `x[3]` alone, in each
source copy: two vectors of at least 4 elements that agree at indices 0, 2 and
3 (whatever they hold at index 1 and from index 4 on) get the same label. -/
theorem C8_ignores_feature_1 (x y : List ℚ) (hx : 4 ≤ x.length) (hy : 4 ≤ y.length)
    (h0 : x[0] = y[0]) (h2 : x[2] = y[2]) (h3 : x[3] = y[3]) :
    MLExports.predict x = MLExports.predict y ∧
    Arduino.predict x = Arduino.predict y := by
  obtain ⟨a, b, c, d, rest, rfl⟩ := exists_cons4 x hx
  obtain ⟨a', b', c', d', rest', rfl⟩ := exists_cons4 y hy
  simp only [List.getElem_cons_zero, List.getElem_cons_succ] at h0 h2 h3
  subst h0 h2 h3
  simp only [mlExports_predict_cons4, arduino_predict_cons4, and_self]

theorem C8_ignores_feature_1_witness :
    MLExports.predict [20, 1, 30, 1] = MLExports.predict [20, 99, 30, 1, 7, 8] ∧
    Arduino.predict [20, 1, 30, 1] = Arduino.predict [20, 99, 30, 1, 7, 8] :=
  C8_ignores_feature_1 [20, 1, 30, 1] [20, 99, 30, 1, 7, 8] (by decide) (by decide)
    rfl rfl rfl

/-- C9 (counterexample): on the 3-element sequence `[0, 0, 0]` neither copy of
`predict` fails with `InvalidInput`: it reads `x[3]` past the end and returns
the label 2 when the cell found there holds 0, and 5 when it holds 1. -/
theorem C9_three_floats_return_a_label :
    MLExports.predictFloat (fun _ => FloatVal.finite 0)
      [.finite 0, .finite 0, .finite 0] = Except.ok 2 ∧
    MLExports.predictFloat (fun _ => FloatVal.finite 1)
      [.finite 0, .finite 0, .finite 0] = Except.ok 5 ∧
    MLExports.predictFloat (fun _ => FloatVal.finite 0)
      [.finite 0, .finite 0, .finite 0] ≠ Except.error Fault.invalidInput ∧
    Arduino.predictFloat (fun _ => FloatVal.finite 0)
      [.finite 0, .finite 0, .finite 0] = Except.ok 2 ∧
    Arduino.predictFloat (fun _ => FloatVal.finite 1)
      [.finite 0, .finite 0, .finite 0] = Except.ok 5 ∧
    Arduino.predictFloat (fun _ => FloatVal.finite 0)
      [.finite 0, .finite 0, .finite 0] ≠ Except.error Fault.invalidInput := by
  simp only [mlExports_predictFloat_eq, arduino_predictFloat_eq, readMem]
  norm_num [FloatVal.le]
  intro h
  cases h

/-- C9 (amended): on every sequence of fewer than 4 elements, `predict` of each
copy makes no length check and raises no error: it reads `x[3]` past the end of
the sequence and returns a label in 0..5, in {0,1,2} exactly when the value
found there is `≤ 0.5`. -/
theorem C9_short_input_reads_past_end (past : Nat → FloatVal) (x : List FloatVal)
    (h : x.length < 4) :
    readMem past x 3 = past 3 ∧
    (∃ l : Int, MLExports.predictFloat past x = Except.ok l ∧ 0 ≤ l ∧ l ≤ 5 ∧
      (l ≤ 2 ↔ (past 3).le 0.5 = true)) ∧
    (∃ l : Int, Arduino.predictFloat past x = Except.ok l ∧ 0 ≤ l ∧ l ≤ 5 ∧
      (l ≤ 2 ↔ (past 3).le 0.5 = true)) := by
  have h3 : readMem past x 3 = past 3 := readMem_past past x 3 (by omega)
  rw [mlExports_predictFloat_eq, arduino_predictFloat_eq, h3]
  refine ⟨rfl, ⟨_, rfl, ?_⟩, ⟨_, rfl, ?_⟩⟩ <;>
  · cases hp : (past 3).le 0.5 <;> simp <;> split_ifs <;> simp

theorem C9_short_input_reads_past_end_witness :
    readMem (fun _ => FloatVal.finite 1) [.finite 0, .finite 0, .finite 0] 3 =
      FloatVal.finite 1 ∧
    (∃ l : Int, MLExports.predictFloat (fun _ => FloatVal.finite 1)
        [.finite 0, .finite 0, .finite 0] = Except.ok l ∧ 0 ≤ l ∧ l ≤ 5 ∧
      (l ≤ 2 ↔ (FloatVal.finite 1).le 0.5 = true)) ∧
    (∃ l : Int, Arduino.predictFloat (fun _ => FloatVal.finite 1)
        [.finite 0, .finite 0, .finite 0] = Except.ok l ∧ 0 ≤ l ∧ l ≤ 5 ∧
      (l ≤ 2 ↔ (FloatVal.finite 1).le 0.5 = true)) :=
  C9_short_input_reads_past_end (fun _ => FloatVal.finite 1)
    [.finite 0, .finite 0, .finite 0] (by decide)

/-- C10: on a sequence of at least 4 elements, `predict` of each copy returns a
label, and every index it reads is one of 3, 0, 2 and lies inside the
sequence, so no read is out of bounds. -/
theorem C10_no_out_of_bounds_read (x : List ℚ) (h : 4 ≤ x.length) :
    (∃ (l : Int) (log : List Nat), MLExports.predict x = Except.ok l ∧
      MLExports.predictLogged x = Except.ok (l, log) ∧
      ∀ i ∈ log, (i = 3 ∨ i = 0 ∨ i = 2) ∧ i < x.length) ∧
    (∃ (l : Int) (log : List Nat), Arduino.predict x = Except.ok l ∧
      Arduino.predictLogged x = Except.ok (l, log) ∧
      ∀ i ∈ log, (i = 3 ∨ i = 0 ∨ i = 2) ∧ i < x.length) := by
  obtain ⟨a, b, c, d, rest, rfl⟩ := exists_cons4 x h
  obtain ⟨log, hlog, hmem⟩ := mlExports_predictLogged_cons4 a b c d rest
  obtain ⟨log', hlog', hmem'⟩ := arduino_predictLogged_cons4 a b c d rest
  refine ⟨⟨_, log, mlExports_predict_cons4 a b c d rest, hlog, ?_⟩,
    ⟨_, log', arduino_predict_cons4 a b c d rest, hlog', ?_⟩⟩
  · intro i hi
    refine ⟨hmem i hi, ?_⟩
    rcases hmem i hi with h | h | h <;> subst h <;> simp
  · intro i hi
    refine ⟨hmem' i hi, ?_⟩
    rcases hmem' i hi with h | h | h <;> subst h <;> simp

theorem C10_no_out_of_bounds_read_witness :
    4 ≤ [50, 0, 0, 1, (9 : ℚ)].length ∧
    (∃ (l : Int) (log : List Nat), MLExports.predict [50, 0, 0, 1, 9] = Except.ok l ∧
      MLExports.predictLogged [50, 0, 0, 1, 9] = Except.ok (l, log) ∧
      ∀ i ∈ log, (i = 3 ∨ i = 0 ∨ i = 2) ∧ i < [50, 0, 0, 1, (9 : ℚ)].length) ∧
    (∃ (l : Int) (log : List Nat), Arduino.predict [50, 0, 0, 1, 9] = Except.ok l ∧
      Arduino.predictLogged [50, 0, 0, 1, 9] = Except.ok (l, log) ∧
      ∀ i ∈ log, (i = 3 ∨ i = 0 ∨ i = 2) ∧ i < [50, 0, 0, 1, (9 : ℚ)].length) :=
  ⟨by decide, C10_no_out_of_bounds_read [50, 0, 0, 1, 9] (by decide)⟩

/-- C11 (counterexample): on the `float` vector `[50, 0, 0, NaN]` both copies
return 3, a label of {3,4,5}, although `x[3] > 0.5` is false for a NaN. -/
theorem C11_nan_feature_3_in_upper_half :
    FloatVal.nan.gt 0.5 = false ∧
    MLExports.predictFloat (fun _ => FloatVal.nan)
      [.finite 50, .finite 0, .finite 0, .nan] = Except.ok 3 ∧
    Arduino.predictFloat (fun _ => FloatVal.nan)
      [.finite 50, .finite 0, .finite 0, .nan] = Except.ok 3 := by
  simp only [mlExports_predictFloat_cons4, arduino_predictFloat_cons4]
  norm_num [FloatVal.le, FloatVal.gt]

/-- C11 (amended): feature 3 selects the half of the label set, in each source
copy: on every 4-element `float` vector the label is in {0,1,2} exactly when
`x3 ≤ 0.5`, and in {3,4,5} exactly when `x3 ≤ 0.5` does not hold, that is when
`x3 > 0.5` or `x3` is a NaN. -/
theorem C11_feature_3_selects_half_on_floats (past : Nat → FloatVal)
    (x0 x1 x2 x3 : FloatVal) :
    (∃ l : Int, MLExports.predictFloat past [x0, x1, x2, x3] = Except.ok l ∧
      ((l = 0 ∨ l = 1 ∨ l = 2) ↔ x3.le 0.5 = true) ∧
      ((l = 3 ∨ l = 4 ∨ l = 5) ↔ (x3.gt 0.5 = true ∨ x3 = FloatVal.nan))) ∧
    (∃ l : Int, Arduino.predictFloat past [x0, x1, x2, x3] = Except.ok l ∧
      ((l = 0 ∨ l = 1 ∨ l = 2) ↔ x3.le 0.5 = true) ∧
      ((l = 3 ∨ l = 4 ∨ l = 5) ↔ (x3.gt 0.5 = true ∨ x3 = FloatVal.nan))) := by
  simp only [← FloatVal.not_le_iff]
  refine ⟨⟨_, mlExports_predictFloat_cons4 past x0 x1 x2 x3 [], ?_⟩,
    ⟨_, arduino_predictFloat_cons4 past x0 x1 x2 x3 [], ?_⟩⟩ <;>
  · cases h3 : x3.le 0.5 <;> simp <;> split_ifs <;> simp

/-- C12: over exact rational features, the Arduino copy and the copy of
`src/ML/exports` return different labels exactly when `x0 ≤ 29.5` and either
`x3 ≤ 0.5` and `24.949999809265137 < x2 ≤ 24.95`, or `x3 > 0.5` and
`24.85 < x2 ≤ 24.850000381469727`; in the first band the Arduino copy returns 2
and the other copy 1, in the second band 4 and 5. -/
theorem C12_where_the_copies_differ (x0 x1 x2 x3 : ℚ) :
    (Arduino.predict [x0, x1, x2, x3] ≠ MLExports.predict [x0, x1, x2, x3] ↔
      x0 ≤ 29.5 ∧ ((x3 ≤ 0.5 ∧ 24.949999809265137 < x2 ∧ x2 ≤ 24.95) ∨
        (0.5 < x3 ∧ 24.85 < x2 ∧ x2 ≤ 24.850000381469727))) ∧
    (x0 ≤ 29.5 → x3 ≤ 0.5 → 24.949999809265137 < x2 → x2 ≤ 24.95 →
      Arduino.predict [x0, x1, x2, x3] = Except.ok 2 ∧
      MLExports.predict [x0, x1, x2, x3] = Except.ok 1) ∧
    (x0 ≤ 29.5 → 0.5 < x3 → 24.85 < x2 → x2 ≤ 24.850000381469727 →
      Arduino.predict [x0, x1, x2, x3] = Except.ok 4 ∧
      MLExports.predict [x0, x1, x2, x3] = Except.ok 5) := by
  simp only [mlExports_predict_cons4, arduino_predict_cons4]
  refine ⟨?_, ?_, ?_⟩
  · split_ifs <;> simp only [ne_eq, Except.ok.injEq] <;>
    first
      | (refine ⟨fun h => absurd trivial h, ?_⟩
         rintro ⟨h0, ⟨a, b, c⟩ | ⟨a, b, c⟩⟩ _ <;> linarith)
      | (refine ⟨fun _ => ?_, fun _ => by decide⟩
         first
           | exact ⟨by linarith, Or.inl ⟨by linarith, by linarith, by linarith⟩⟩
           | exact ⟨by linarith, Or.inr ⟨by linarith, by linarith, by linarith⟩⟩)
  · intro h0 h3 hm ha
    simp only [if_pos h3, if_pos h0, if_pos ha, if_neg (not_le.mpr hm), and_self]
  · intro h0 h3 hb hn
    simp only [if_neg (not_le.mpr h3), if_pos h0, if_pos hn, if_neg (not_le.mpr hb), and_self]

theorem C12_where_the_copies_differ_witness :
    (Arduino.predict [20, 0, 24.95, 0] = Except.ok 2 ∧
      MLExports.predict [20, 0, 24.95, 0] = Except.ok 1) ∧
    (Arduino.predict [20, 0, 24.850000381469727, 1] = Except.ok 4 ∧
      MLExports.predict [20, 0, 24.850000381469727, 1] = Except.ok 5) :=
  ⟨(C12_where_the_copies_differ 20 0 24.95 0).2.1 (by norm_num) (by norm_num)
      (by norm_num) (le_refl _),
    (C12_where_the_copies_differ 20 0 24.850000381469727 1).2.2 (by norm_num) (by norm_num)
      (by norm_num) (le_refl _)⟩

/-- C13: `predict` is monotone in each feature it reads, in each source copy:
raising `x[0]` alone, or `x[2]` alone, never raises the label, and raising
`x[3]` alone never lowers it. -/
theorem C13_monotone_in_each_feature (x0 x1 x2 x3 y : ℚ) :
    (x0 ≤ y → ∃ lx ly : Int, MLExports.predict [x0, x1, x2, x3] = Except.ok lx ∧
      MLExports.predict [y, x1, x2, x3] = Except.ok ly ∧ ly ≤ lx) ∧
    (x2 ≤ y → ∃ lx ly : Int, MLExports.predict [x0, x1, x2, x3] = Except.ok lx ∧
      MLExports.predict [x0, x1, y, x3] = Except.ok ly ∧ ly ≤ lx) ∧
    (x3 ≤ y → ∃ lx ly : Int, MLExports.predict [x0, x1, x2, x3] = Except.ok lx ∧
      MLExports.predict [x0, x1, x2, y] = Except.ok ly ∧ lx ≤ ly) ∧
    (x0 ≤ y → ∃ lx ly : Int, Arduino.predict [x0, x1, x2, x3] = Except.ok lx ∧
      Arduino.predict [y, x1, x2, x3] = Except.ok ly ∧ ly ≤ lx) ∧
    (x2 ≤ y → ∃ lx ly : Int, Arduino.predict [x0, x1, x2, x3] = Except.ok lx ∧
      Arduino.predict [x0, x1, y, x3] = Except.ok ly ∧ ly ≤ lx) ∧
    (x3 ≤ y → ∃ lx ly : Int, Arduino.predict [x0, x1, x2, x3] = Except.ok lx ∧
      Arduino.predict [x0, x1, x2, y] = Except.ok ly ∧ lx ≤ ly) := by
  refine ⟨fun h => ⟨_, _, mlExports_predict_cons4 _ _ _ _ _,
      mlExports_predict_cons4 _ _ _ _ _, ?_⟩,
    fun h => ⟨_, _, mlExports_predict_cons4 _ _ _ _ _, mlExports_predict_cons4 _ _ _ _ _, ?_⟩,
    fun h => ⟨_, _, mlExports_predict_cons4 _ _ _ _ _, mlExports_predict_cons4 _ _ _ _ _, ?_⟩,
    fun h => ⟨_, _, arduino_predict_cons4 _ _ _ _ _, arduino_predict_cons4 _ _ _ _ _, ?_⟩,
    fun h => ⟨_, _, arduino_predict_cons4 _ _ _ _ _, arduino_predict_cons4 _ _ _ _ _, ?_⟩,
    fun h => ⟨_, _, arduino_predict_cons4 _ _ _ _ _, arduino_predict_cons4 _ _ _ _ _, ?_⟩⟩ <;>
  · split_ifs <;> first | decide | (exfalso; linarith)

theorem C13_monotone_in_each_feature_witness :
    (∃ lx ly : Int, MLExports.predict [20, 0, 20, 0] = Except.ok lx ∧
      MLExports.predict [40, 0, 20, 0] = Except.ok ly ∧ ly ≤ lx) ∧
    (∃ lx ly : Int, MLExports.predict [20, 0, 20, 0] = Except.ok lx ∧
      MLExports.predict [20, 0, 30, 0] = Except.ok ly ∧ ly ≤ lx) ∧
    (∃ lx ly : Int, MLExports.predict [20, 0, 20, 0] = Except.ok lx ∧
      MLExports.predict [20, 0, 20, 1] = Except.ok ly ∧ lx ≤ ly) ∧
    (∃ lx ly : Int, Arduino.predict [20, 0, 20, 0] = Except.ok lx ∧
      Arduino.predict [40, 0, 20, 0] = Except.ok ly ∧ ly ≤ lx) ∧
    (∃ lx ly : Int, Arduino.predict [20, 0, 20, 0] = Except.ok lx ∧
      Arduino.predict [20, 0, 30, 0] = Except.ok ly ∧ ly ≤ lx) ∧
    (∃ lx ly : Int, Arduino.predict [20, 0, 20, 0] = Except.ok lx ∧
      Arduino.predict [20, 0, 20, 1] = Except.ok ly ∧ lx ≤ ly) :=
  ⟨(C13_monotone_in_each_feature 20 0 20 0 40).1 (by norm_num),
    (C13_monotone_in_each_feature 20 0 20 0 30).2.1 (by norm_num),
    (C13_monotone_in_each_feature 20 0 20 0 1).2.2.1 (by norm_num),
    (C13_monotone_in_each_feature 20 0 20 0 40).2.2.2.1 (by norm_num),
    (C13_monotone_in_each_feature 20 0 20 0 30).2.2.2.2.1 (by norm_num),
    (C13_monotone_in_each_feature 20 0 20 0 1).2.2.2.2.2 (by norm_num)⟩

/-- C15: no leaf is dead: in each source copy a label is returned on some
4-element vector exactly when it is one of 0, 1, 2, 3, 4, 5. -/
theorem C15_image_is_all_six_labels (l : Int) :
    ((∃ x : List ℚ, x.length = 4 ∧ MLExports.predict x = Except.ok l) ↔ 0 ≤ l ∧ l ≤ 5) ∧
    ((∃ x : List ℚ, x.length = 4 ∧ Arduino.predict x = Except.ok l) ↔ 0 ≤ l ∧ l ≤ 5) := by
  constructor
  · constructor
    · rintro ⟨x, hx, h⟩
      obtain ⟨a, b, c, d, rest, rfl⟩ := exists_cons4 x (by omega)
      rw [mlExports_predict_cons4, Except.ok.injEq] at h
      subst h
      constructor <;> split_ifs <;> decide
    · rintro ⟨h0, h5⟩
      interval_cases l
      · exact ⟨[50, 0, 0, 0], rfl, by rw [mlExports_predict_cons4]; norm_num⟩
      · exact ⟨[40, 0, 0, 0], rfl, by rw [mlExports_predict_cons4]; norm_num⟩
      · exact ⟨[0, 0, 0, 0], rfl, by rw [mlExports_predict_cons4]; norm_num⟩
      · exact ⟨[50, 0, 0, 1], rfl, by rw [mlExports_predict_cons4]; norm_num⟩
      · exact ⟨[40, 0, 0, 1], rfl, by rw [mlExports_predict_cons4]; norm_num⟩
      · exact ⟨[0, 0, 0, 1], rfl, by rw [mlExports_predict_cons4]; norm_num⟩
  · constructor
    · rintro ⟨x, hx, h⟩
      obtain ⟨a, b, c, d, rest, rfl⟩ := exists_cons4 x (by omega)
      rw [arduino_predict_cons4, Except.ok.injEq] at h
      subst h
      constructor <;> split_ifs <;> decide
    · rintro ⟨h0, h5⟩
      interval_cases l
      · exact ⟨[50, 0, 0, 0], rfl, by rw [arduino_predict_cons4]; norm_num⟩
      · exact ⟨[40, 0, 0, 0], rfl, by rw [arduino_predict_cons4]; norm_num⟩
      · exact ⟨[0, 0, 0, 0], rfl, by rw [arduino_predict_cons4]; norm_num⟩
      · exact ⟨[50, 0, 0, 1], rfl, by rw [arduino_predict_cons4]; norm_num⟩
      · exact ⟨[40, 0, 0, 1], rfl, by rw [arduino_predict_cons4]; norm_num⟩
      · exact ⟨[0, 0, 0, 1], rfl, by rw [arduino_predict_cons4]; norm_num⟩
